import Mathlib

/-
Verification of the swc-based module compiler
(packages/esm-worker/compiler/src/swc.rs).

The Rust source is shallowly embedded: every pure function of swc.rs is
translated to a Lean function of the same name; external swc collaborators
(the lexer/parser, the printer, the AST folds) are taken as parameters of
the embedded functions, and the pieces of this repository that are not in
swc.rs (resolver.rs, source_type.rs, export_names.rs, error.rs) are
modelled from the spec, each marked as such in its doc comment.
-/

namespace Esm

/-- Source types. The enum lives in source_type.rs (not part of the given
sources); its variants JS, JSX, TS, TSX and Unknown are all used by swc.rs. -/
inductive SourceType where
  | JS
  | JSX
  | TS
  | TSX
  | Unknown
deriving DecidableEq, Repr

/-- Options for transpiling a module (swc.rs, struct EmitOptions). -/
structure EmitOptions where
  jsx_factory : String
  jsx_fragment_factory : String
  source_map : Bool
  is_dev : Bool
deriving DecidableEq, Repr

/-- The Default instance of EmitOptions (swc.rs, impl Default for EmitOptions). -/
def EmitOptions.default : EmitOptions :=
  { jsx_factory := "React.createElement"
    jsx_fragment_factory := "React.Fragment"
    is_dev := false
    source_map := false }

/-- Import kinds of a dependency descriptor. Modelled from the spec:
DependencyDescriptor.import_kind is one of static, dynamic, export-from,
export-star (resolver.rs is not among the given sources). -/
inductive ImportKind where
  | staticImport
  | dynamicImport
  | exportFrom
  | exportStar
deriving DecidableEq, Repr

/-- A dependency descriptor recorded by the import resolver. Modelled from
the spec: specifier (post-resolution), import kind, and a source position
range (resolver.rs is not among the given sources); swc.rs reads only the
specifier field. -/
structure DependencyDescriptor where
  specifier : String
  import_kind : ImportKind
  pos_lo : Nat
  pos_hi : Nat
deriving DecidableEq, Repr

/-- The resolver state shared between the rewrite stage and the pruner.
Modelled from the spec: own specifier, ordered deps, star-export specifier
set, the remote flag and bundle mode (resolver.rs is not among the given
sources); swc.rs reads deps, star_exports and specifier_is_remote. -/
structure Resolver where
  specifier : String
  deps : List DependencyDescriptor
  star_exports : List String
  specifier_is_remote : Bool
  bundle_mode : Bool
deriving DecidableEq, Repr

/-- Character-list prefix test, used to embed the substring and prefix
searches of the Rust str methods. -/
def leadsWith : List Char → List Char → Bool
  | [], _ => true
  | _ :: _, [] => false
  | a :: as, b :: bs => a == b && leadsWith as bs

/-- Embedding of the Rust str starts_with method. -/
def strStartsWith (s pre : String) : Bool :=
  leadsWith pre.data s.data

/-- Embedding of the Rust str ends_with method. -/
def strEndsWith (s tail : String) : Bool :=
  leadsWith tail.data.reverse s.data.reverse

/-- Modelled from the spec: a specifier is remote when it is itself a
remote (URL-form) reference; used by Resolver construction only. -/
def isRemoteSpecifier (specifier : String) : Bool :=
  strStartsWith specifier "https://" || strStartsWith specifier "http://"

/-- Modelled from the spec: Resolver construction computes
specifier_is_remote once, from the importing module specifier itself;
deps and star_exports start empty (resolver.rs is not among the given
sources). -/
def Resolver.new (specifier : String) (bundle_mode : Bool) : Resolver :=
  { specifier := specifier
    deps := []
    star_exports := []
    specifier_is_remote := isRemoteSpecifier specifier
    bundle_mode := bundle_mode }

/-- Wrap a text in double quotes (swc.rs, fn to_str_lit). -/
def to_str_lit (sub_text : String) : String :=
  "\"" ++ sub_text ++ "\""

/-- Character-list substring test: the needle occurs contiguously inside
the haystack. -/
def listContainsSub (needle : List Char) : List Char → Bool
  | [] => needle.isEmpty
  | c :: tl => leadsWith needle (c :: tl) || listContainsSub needle tl

/-- Embedding of the Rust str contains method on substrings:
strContains haystack needle is true when needle occurs contiguously in
haystack. -/
def strContains (haystack needle : String) : Bool :=
  listContainsSub needle.data haystack.data

/-- The dependency pruning loop of SWC::transform (swc.rs lines 174-183):
rebuilds the deps list, pushing a dep exactly when its specifier is in the
star-export set or the emitted code contains it as a double-quoted
literal. -/
def prune_deps (star_exports : List String) (code : String) :
    List DependencyDescriptor → List DependencyDescriptor
  | [] => []
  | dep :: rest =>
    if star_exports.contains dep.specifier
        || strContains code (to_str_lit dep.specifier) then
      dep :: prune_deps star_exports code rest
    else
      prune_deps star_exports code rest

/-- Binding patterns of declarations, as needed by the export-name walker.
Modelled from the spec: object and array destructuring patterns nest
arbitrarily; a rest element binds its own name (export_names.rs is not
among the given sources). An object property is either key-and-value,
shorthand, or a rest element; props and array elements are listed in
declaration order. -/
inductive Pat where
  | ident (name : String)
  | arrayPat (elems : List Pat)
  | objectPat (props : List Pat)
  | kvProp (key : String) (value : Pat)
  | shorthandProp (name : String)
  | restPat (arg : Pat)

mutual

/-- Leaf binding identifiers of a pattern, left to right, depth first.
Modelled from the spec (export_names.rs is not among the given sources). -/
def patNames : Pat → List String
  | .ident n => [n]
  | .arrayPat elems => patListNames elems
  | .objectPat props => patListNames props
  | .kvProp _ value => patNames value
  | .shorthandProp n => [n]
  | .restPat arg => patNames arg

/-- Leaf binding identifiers of a pattern list, left to right. -/
def patListNames : List Pat → List String
  | [] => []
  | p :: tl => patNames p ++ patListNames tl

end

/-- A declaration that can be exported. Modelled from the spec: var-like
declarations carry one pattern per declarator; function and class
declarations carry one name. -/
inductive Decl where
  | varDecl (declarators : List Pat)
  | fnDecl (name : String)
  | classDecl (name : String)

/-- Module items, as needed by the export-name walker and the resolver.
Modelled from the spec (the swc AST is an external collaborator): named
re-exports carry the local, possibly aliased, names. -/
inductive ModuleItem where
  | importDecl (specifier : String)
  | exportDecl (d : Decl)
  | exportDefaultDecl
  | exportNamed (names : List String) (src : Option String)
  | exportStarAs (aliasName : String) (src : String)
  | exportStar (src : String)
  | otherStmt

/-- A parsed module: an ordered list of module items. -/
structure Module where
  body : List ModuleItem

/-- Export names contributed by one module item. Modelled from the spec
rules of the export-name extractor (export_names.rs is not among the given
sources): declarations contribute their binding names, a default export
contributes the literal name default, named re-exports contribute the
local names, a namespace re-export contributes its alias, and a bare
wildcard re-export contributes the specifier wrapped in braces. -/
def itemExportNames : ModuleItem → List String
  | .importDecl _ => []
  | .exportDecl (.varDecl declarators) => patListNames declarators
  | .exportDecl (.fnDecl n) => [n]
  | .exportDecl (.classDecl n) => [n]
  | .exportDefaultDecl => ["default"]
  | .exportNamed names _ => names
  | .exportStarAs a _ => [a]
  | .exportStar src => ["\x7b" ++ src ++ "\x7d"]
  | .otherStmt => []

/-- The ExportParser fold: traverses the module items in order, returning
every item unchanged while accumulating export names. Modelled from the
spec: a pure, non-mutating traversal (export_names.rs is not among the
given sources). -/
def foldModuleItems (acc : List String) :
    List ModuleItem → List ModuleItem × List String
  | [] => ([], acc)
  | it :: tl =>
    let rest := foldModuleItems (acc ++ itemExportNames it) tl
    (it :: rest.1, rest.2)

/-- The structured parse diagnostic: specifier, position and message.
Modelled from the spec (error.rs is not among the given sources):
DiagnosticBuffer carries the specifier and, via lookup of the error span,
line and column, plus the message. -/
structure DiagnosticBuffer where
  specifier : String
  line : Nat
  col : Nat
  message : String
deriving DecidableEq, Repr

/-- A raw error of the external swc parser: a span (looked up to line and
column by the source map) and a message. -/
structure RawParseErr where
  line : Nat
  col : Nat
  message : String
deriving DecidableEq, Repr

/-- The diagnostic built by the map_err closure of SWC::parse: the error
buffer carries the specifier, and the span of the raw error is looked up
to line and column. -/
def diagnosticOf (specifier : String) (e : RawParseErr) : DiagnosticBuffer :=
  { specifier := specifier
    line := e.line
    col := e.col
    message := e.message }

/-- The parsed-module value built by SWC::parse (swc.rs, struct SWC): the
source-map context is the list of registered source-file names, and the
comment store is kept abstract as a list of comment texts. -/
structure SWC where
  specifier : String
  module : Module
  source_type : SourceType
  source_map : List String
  comments : List String

/-- Modelled from the spec: the source-type classifier maps the extension
of a specifier to a grammar variant, falling back to Unknown
(source_type.rs is not among the given sources). -/
def sourceTypeFromSpecifier (specifier : String) : SourceType :=
  if strEndsWith specifier ".tsx" then SourceType.TSX
  else if strEndsWith specifier ".ts" then SourceType.TS
  else if strEndsWith specifier ".jsx" then SourceType.JSX
  else if strEndsWith specifier ".js" then SourceType.JS
  else SourceType.Unknown

/-- The source-type resolution match of SWC::parse (swc.rs lines 67-73):
fromExt stands for the classification of the specifier by extension; an
explicit hint wins unless it is Unknown. -/
def resolveSourceType (fromExt : SourceType) : Option SourceType → SourceType
  | some SourceType.Unknown => fromExt
  | some t => t
  | none => fromExt

/-- Outcome of a Rust function that can also panic: ok and err are the two
arms of the returned Result, panicked is an aborting panic (unwrap on an
Err value), carrying the diagnostic the panic formats. -/
inductive ParseOutcome (α : Type) where
  | ok (value : α)
  | err (e : DiagnosticBuffer)
  | panicked (e : DiagnosticBuffer)
deriving DecidableEq, Repr

/-- Embedding of SWC::parse (swc.rs lines 55-103). The external swc parser
is the parameter parseModule, yielding a module or a raw error for a given
syntax and source. On a parse error the Rust code maps the error to a
DiagnosticBuffer and then calls unwrap on the Err value, which panics; it
never returns the Err arm of its Result. -/
def SWC.parse (specifier source : String) (source_type : Option SourceType)
    (parseModule : SourceType → String → Except RawParseErr Module) :
    ParseOutcome SWC :=
  let st := resolveSourceType (sourceTypeFromSpecifier specifier) source_type
  match parseModule st source with
  | .error e => .panicked (diagnosticOf specifier e)
  | .ok m =>
    .ok { specifier := specifier
          module := m
          source_type := st
          source_map := [specifier]
          comments := [] }

/-- Embedding of SWC::parse_export_names (swc.rs lines 106-111): folds the
cloned module with the ExportParser and returns Ok of the collected
names. -/
def SWC.parse_export_names (s : SWC) : Except DiagnosticBuffer (List String) :=
  let folded := foldModuleItems [] s.module.body
  .ok folded.2

/-- The react jsx options built inside SWC::transform (swc.rs lines
146-152): pragma and pragma_frag come from EmitOptions, and use_builtins
is set, which makes spread props use the builtin Object.assign instead of
the extends runtime helper. -/
structure ReactOptions where
  pragma : String
  pragma_frag : String
  use_builtins : Bool
deriving DecidableEq, Repr

/-- The passes chained by SWC::transform (swc.rs lines 127-169), in chain
order; each carries the configuration the Rust code passes to it. -/
inductive Pass where
  | refresh
  | resolverWithMark
  | jsxTransform (opts : ReactOptions)
  | resolveFold (is_dev : Bool)
  | decoratorsPass (legacy emit_metadata : Bool)
  | injectHelpers
  | stripTs (use_define_for_class_fields : Bool)
  | fixerPass
  | hygienePass
deriving DecidableEq, Repr

/-- The jsx source-type test of SWC::transform (swc.rs lines 122-126). -/
def jsxFlag : SourceType → Bool
  | SourceType.JSX => true
  | SourceType.TSX => true
  | _ => false

/-- The ordered pass chain built by SWC::transform (swc.rs lines 127-169).
Each element pairs a pass with the boolean under which the Optional
wrapper applies it; the passes that are not wrapped in Optional carry
true. -/
def transformPasses (source_type : SourceType) (resolver : Resolver)
    (options : EmitOptions) : List (Pass × Bool) :=
  let specifier_is_remote := resolver.specifier_is_remote
  let jsx := jsxFlag source_type
  [ (Pass.refresh, options.is_dev && !specifier_is_remote),
    (Pass.resolverWithMark, jsx),
    (Pass.jsxTransform
       { pragma := options.jsx_factory
         pragma_frag := options.jsx_fragment_factory
         use_builtins := true },
     jsx),
    (Pass.resolveFold options.is_dev, true),
    (Pass.decoratorsPass true false, true),
    (Pass.injectHelpers, true),
    (Pass.stripTs true, true),
    (Pass.fixerPass, true),
    (Pass.hygienePass, true) ]

/-- A source-map payload as returned to the caller: the list of referenced
source files and the raw mappings text. -/
structure SourceMapPayload where
  sources : List String
  mappings : String
deriving DecidableEq, Repr

/-- Modelled from the spec: the printer collaborator builds a source map
referencing the source files registered in the source-map context
(swc.rs lines 226-233 call the external build_source_map_from on the
per-module source map, whose only registered file is the one added by
SWC::parse). -/
def build_source_map (files : List String) (mappings : String) :
    SourceMapPayload :=
  { sources := files, mappings := mappings }

/-- Embedding of SWC::apply_fold (swc.rs lines 190-237). The fold
parameter is the composed pass chain acting on the module; the emit
parameter is the external printer, yielding the code text and the raw
source mappings. The map payload is built only in the source_map branch,
from the files registered in the source-map context of the SWC value. -/
def SWC.apply_fold (s : SWC) (fold : Module → Module)
    (emit : Module → String × String) (source_map : Bool) :
    String × Option SourceMapPayload :=
  let program := fold s.module
  let emitted := emit program
  if source_map then
    (emitted.1, some (build_source_map s.source_map emitted.2))
  else
    (emitted.1, none)

/-- Embedding of SWC::transform (swc.rs lines 114-187). The runPasses
parameter stands for the fused execution of the chained passes; after
apply_fold, the deps of the resolver are pruned against the emitted code
by the tree-shaking loop, and the pruned resolver is returned alongside
the code and optional map. -/
def SWC.transform (s : SWC) (resolver : Resolver) (options : EmitOptions)
    (runPasses : List (Pass × Bool) → Module → Module)
    (emit : Module → String × String) :
    (String × Option SourceMapPayload) × Resolver :=
  let passes := transformPasses s.source_type resolver options
  let out := s.apply_fold (runPasses passes) emit options.source_map
  let deps := prune_deps resolver.star_exports out.1 resolver.deps
  (out, { resolver with deps := deps })

/-! Helper lemmas about the pruning loop and the export-name fold. -/

/-- The pruning loop is a filter over the recorded deps. -/
theorem prune_deps_eq_filter (star : List String) (code : String)
    (l : List DependencyDescriptor) :
    prune_deps star code l
      = l.filter (fun dep =>
          star.contains dep.specifier
            || strContains code (to_str_lit dep.specifier)) := by
  induction l with
  | nil => rfl
  | cons dep rest ih =>
    simp only [prune_deps, List.filter_cons, ih]

/-- Membership in the pruned list: a dep is retained exactly when it was
recorded and either the emitted code contains its double-quoted specifier
or its specifier is in the star-export set. -/
theorem mem_prune_deps (star : List String) (code : String)
    (l : List DependencyDescriptor) (dep : DependencyDescriptor) :
    dep ∈ prune_deps star code l ↔
      dep ∈ l ∧ (strContains code (to_str_lit dep.specifier) = true
        ∨ dep.specifier ∈ star) := by
  rw [prune_deps_eq_filter, List.mem_filter]
  constructor
  · rintro ⟨hmem, hcond⟩
    refine ⟨hmem, ?_⟩
    rcases Bool.or_eq_true_iff.mp hcond with h | h
    · exact Or.inr (by simpa using h)
    · exact Or.inl h
  · rintro ⟨hmem, hcond⟩
    refine ⟨hmem, Bool.or_eq_true_iff.mpr ?_⟩
    rcases hcond with h | h
    · exact Or.inr h
    · exact Or.inl (by simpa using h)

/-- The pruned list is a sublist of the recorded list. -/
theorem prune_deps_sublist (star : List String) (code : String)
    (l : List DependencyDescriptor) :
    List.Sublist (prune_deps star code l) l := by
  rw [prune_deps_eq_filter]
  exact List.filter_sublist l

/-- The ExportParser fold returns every module item unchanged. -/
theorem foldModuleItems_fst (acc : List String) (l : List ModuleItem) :
    (foldModuleItems acc l).1 = l := by
  induction l generalizing acc with
  | nil => rfl
  | cons it tl ih => simp [foldModuleItems, ih]

/-! Concrete sample values used by the witness theorems. -/

/-- A sample module: a single bare wildcard re-export. -/
def sampleModule : Module :=
  { body := [ModuleItem.exportStar "https://esm.sh/react"] }

/-- A sample parsed-module value, as SWC::parse would build it. -/
def sampleSWC : SWC :=
  { specifier := "/app.ts"
    module := sampleModule
    source_type := SourceType.TS
    source_map := ["/app.ts"]
    comments := [] }

/-- A sample star-export dependency descriptor. -/
def depStar : DependencyDescriptor :=
  { specifier := "https://esm.sh/react"
    import_kind := ImportKind.exportStar
    pos_lo := 0
    pos_hi := 0 }

/-- A sample static dependency descriptor on the specifier react. -/
def depReact : DependencyDescriptor :=
  { specifier := "react"
    import_kind := ImportKind.staticImport
    pos_lo := 0
    pos_hi := 0 }

/-- A sample resolver state after the rewrite stage: one star-export dep,
whose specifier is in the star-export set. -/
def sampleResolver : Resolver :=
  { specifier := "/app.ts"
    deps := [depStar]
    star_exports := ["https://esm.sh/react"]
    specifier_is_remote := false
    bundle_mode := false }

/-- A sample pass runner that leaves the module unchanged. -/
def idPasses : List (Pass × Bool) → Module → Module :=
  fun _ m => m

/-- A sample emitter producing a fixed code text with no quoted specifier
and fixed raw mappings. -/
def constEmit : Module → String × String :=
  fun _ => ("const x = 1;", "AAAA")

/-- The single-quote character, built by code point. -/
def singleQuote : Char := Char.ofNat 39

/-- A sample emitted text in which the specifier react occurs only
single-quoted. -/
def sqCode : String :=
  "import * as react from " ++ String.mk [singleQuote]
    ++ "react" ++ String.mk [singleQuote] ++ ";"

/-- A sample emitter producing the single-quoted text. -/
def sqEmit : Module → String × String :=
  fun _ => (sqCode, "AAAA")

/-- A sample external parser that always fails with a fixed raw error. -/
def failingParseModule : SourceType → String → Except RawParseErr Module :=
  fun _ _ => .error { line := 1, col := 7, message := "Expected ident" }

/-- A sample external parser that always succeeds with the sample module. -/
def okParseModule : SourceType → String → Except RawParseErr Module :=
  fun _ _ => .ok sampleModule

/-! Claim theorems. -/

/-- Claim C10: the default EmitOptions value has jsx_factory
React.createElement, jsx_fragment_factory React.Fragment, source_map
false and is_dev false. -/
theorem C10_default_options :
    EmitOptions.default.jsx_factory = "React.createElement"
    ∧ EmitOptions.default.jsx_fragment_factory = "React.Fragment"
    ∧ EmitOptions.default.source_map = false
    ∧ EmitOptions.default.is_dev = false :=
  ⟨rfl, rfl, rfl, rfl⟩

/-- Claim C2: for every resolver state and emitted text, the dependency
list after pruning is a sublist (order-preserving, duplication-free
selection) of the dependency list before pruning: pruning only removes
entries, never adds, reorders or duplicates them. -/
theorem C2_prune_sublist (s : SWC) (r : Resolver) (o : EmitOptions)
    (rp : List (Pass × Bool) → Module → Module)
    (em : Module → String × String) :
    List.Sublist (s.transform r o rp em).2.deps r.deps :=
  prune_deps_sublist r.star_exports
    (s.apply_fold (rp (transformPasses s.source_type r o)) em o.source_map).1
    r.deps

/-- Claim C1: after a transform, a recorded dependency descriptor is
retained if and only if it was recorded and either its resolved specifier
occurs as a double-quoted string literal substring of the emitted code or
its specifier is a member of the star-export specifier set; in particular
every recorded descriptor whose specifier is in the star-export set
survives pruning, whatever the emitted text. -/
theorem C1_prune_retention (s : SWC) (r : Resolver) (o : EmitOptions)
    (rp : List (Pass × Bool) → Module → Module)
    (em : Module → String × String) :
    (∀ dep : DependencyDescriptor,
      dep ∈ (s.transform r o rp em).2.deps ↔
        dep ∈ r.deps
          ∧ (strContains (s.transform r o rp em).1.1
                (to_str_lit dep.specifier) = true
              ∨ dep.specifier ∈ r.star_exports))
    ∧ ∀ dep : DependencyDescriptor, dep ∈ r.deps →
        dep.specifier ∈ r.star_exports →
          dep ∈ (s.transform r o rp em).2.deps := by
  constructor
  · intro dep
    exact mem_prune_deps r.star_exports _ r.deps dep
  · intro dep hmem hstar
    exact (mem_prune_deps r.star_exports _ r.deps dep).mpr
      ⟨hmem, Or.inr hstar⟩

/-- Witness for C1: the star-export descriptor of the sample resolver
survives pruning although the sample emitted code contains no quoted
occurrence of its specifier. -/
theorem C1_prune_retention_witness :
    depStar ∈ (sampleSWC.transform sampleResolver EmitOptions.default
      idPasses constEmit).2.deps :=
  (C1_prune_retention sampleSWC sampleResolver EmitOptions.default
    idPasses constEmit).2 depStar (by decide) (by decide)

/-- Claim C9: the quoted-literal check of the pruner matches the
dependency specifier wrapped in double-quote characters only: to_str_lit
wraps in double quotes, and a dependency whose specifier is not in the
star-export set is retained exactly when its double-quoted specifier is a
substring of the emitted text. -/
theorem C9_double_quote_only (star : List String) (code : String)
    (deps : List DependencyDescriptor) (dep : DependencyDescriptor)
    (hstar : dep.specifier ∉ star) :
    to_str_lit dep.specifier = "\"" ++ dep.specifier ++ "\""
    ∧ (dep ∈ prune_deps star code deps ↔
        dep ∈ deps
          ∧ strContains code ("\"" ++ dep.specifier ++ "\"") = true) := by
  refine ⟨rfl, ?_⟩
  rw [mem_prune_deps]
  constructor
  · rintro ⟨hmem, hcond⟩
    rcases hcond with h | h
    · exact ⟨hmem, h⟩
    · exact absurd h hstar
  · rintro ⟨hmem, h⟩
    exact ⟨hmem, Or.inl h⟩

/-- Witness for C9: a dependency on react whose specifier occurs in the
emitted text only single-quoted is discarded by the pruner. -/
theorem C9_double_quote_only_witness :
    depReact ∉ prune_deps [] sqCode [depReact] := by
  intro hmem
  have h := (C9_double_quote_only [] sqCode [depReact] depReact
    (by decide)).2.mp hmem
  exact absurd h.2 (by decide)

/-- Parse success yields a source-map context registering exactly the
input specifier. -/
theorem parse_ok_source_map (specifier source : String)
    (hint : Option SourceType)
    (pm : SourceType → String → Except RawParseErr Module) (s2 : SWC)
    (h : SWC.parse specifier source hint pm = ParseOutcome.ok s2) :
    s2.source_map = [specifier] := by
  cases hp : pm (resolveSourceType (sourceTypeFromSpecifier specifier) hint)
      source with
  | error e =>
    have he : SWC.parse specifier source hint pm
        = ParseOutcome.panicked (diagnosticOf specifier e) := by
      simp only [SWC.parse]
      rw [hp]
    rw [he] at h
    cases h
  | ok m =>
    have he : SWC.parse specifier source hint pm
        = ParseOutcome.ok
            { specifier := specifier
              module := m
              source_type :=
                resolveSourceType (sourceTypeFromSpecifier specifier) hint
              source_map := [specifier]
              comments := [] } := by
      simp only [SWC.parse]
      rw [hp]
    rw [he] at h
    cases h
    rfl

/-- Claim C3 (code defect): on a parse failure, SWC::parse builds the
structured diagnostic carrying specifier, line, column and message, but
then calls unwrap on the Err value of its map_err result, which panics;
the diagnostic is never returned to the immediate caller as the Err arm
of the Result. Shown at a concrete failing input. -/
theorem C3_parse_error_panics :
    SWC.parse "/app.ts" "import" none failingParseModule
      = ParseOutcome.panicked
          { specifier := "/app.ts", line := 1, col := 7,
            message := "Expected ident" }
    ∧ ∀ d : DiagnosticBuffer,
        SWC.parse "/app.ts" "import" none failingParseModule
          ≠ ParseOutcome.err d := by
  refine ⟨rfl, ?_⟩
  intro d h
  rw [show SWC.parse "/app.ts" "import" none failingParseModule
        = ParseOutcome.panicked
            { specifier := "/app.ts", line := 1, col := 7,
              message := "Expected ident" } from rfl] at h
  cases h

/-- Claim C4: the dev-refresh pass is the first element of the transform
pass chain, and its gate is true exactly when is_dev is true and the
resolver remote flag is false; the remote flag of a constructed resolver
is computed from the importing module specifier itself. -/
theorem C4_refresh_gate (st : SourceType) (r : Resolver) (o : EmitOptions) :
    (transformPasses st r o).head?
      = some (Pass.refresh, o.is_dev && !r.specifier_is_remote)
    ∧ ((o.is_dev && !r.specifier_is_remote) = true ↔
        (o.is_dev = true ∧ r.specifier_is_remote = false))
    ∧ ∀ (specifier : String) (bundle_mode : Bool),
        (Resolver.new specifier bundle_mode).specifier_is_remote
          = isRemoteSpecifier specifier := by
  refine ⟨rfl, ?_, fun _ _ => rfl⟩
  simp

/-- Claim C5: the source-type resolution of SWC::parse lets an explicit
hint win unless the hint is Unknown, in which case the classification of
the specifier by extension decides, as it also does when no hint is
given. -/
theorem C5_source_type (specifier : String) :
    (∀ t : SourceType, t ≠ SourceType.Unknown →
        resolveSourceType (sourceTypeFromSpecifier specifier) (some t) = t)
    ∧ resolveSourceType (sourceTypeFromSpecifier specifier)
        (some SourceType.Unknown) = sourceTypeFromSpecifier specifier
    ∧ resolveSourceType (sourceTypeFromSpecifier specifier) none
        = sourceTypeFromSpecifier specifier := by
  refine ⟨?_, rfl, rfl⟩
  intro t ht
  cases t with
  | Unknown => exact absurd rfl ht
  | JS => rfl
  | JSX => rfl
  | TS => rfl
  | TSX => rfl

/-- Witness for C5: an explicit TS hint wins over a js extension. -/
theorem C5_source_type_witness :
    resolveSourceType (sourceTypeFromSpecifier "/app.js")
      (some SourceType.TS) = SourceType.TS :=
  (C5_source_type "/app.js").1 SourceType.TS (by decide)

/-- Claim C6: the top-level binding-marking pass and the jsx desugaring
pass are the second and third elements of the pass chain, both gated on
the source type being JSX or TSX; the jsx pass is configured with the
factory and fragment names of EmitOptions and with use_builtins set,
which makes spread attributes use the builtin Object.assign instead of a
runtime spread helper. -/
theorem C6_jsx_gate (st : SourceType) (r : Resolver) (o : EmitOptions) :
    (transformPasses st r o).get? 1
      = some (Pass.resolverWithMark, jsxFlag st)
    ∧ (transformPasses st r o).get? 2
        = some (Pass.jsxTransform
            { pragma := o.jsx_factory
              pragma_frag := o.jsx_fragment_factory
              use_builtins := true }, jsxFlag st)
    ∧ (jsxFlag st = true ↔ (st = SourceType.JSX ∨ st = SourceType.TSX)) := by
  refine ⟨rfl, rfl, ?_⟩
  cases st <;> simp [jsxFlag]

/-- Claim C7: the transform result carries a source-map payload exactly
when the source_map option is true; when present, the payload is built
from the source-map context of the parsed module, which registers exactly
the input specifier, so its referenced source equals the input
specifier. -/
theorem C7_source_map_gate (s : SWC) (r : Resolver) (o : EmitOptions)
    (rp : List (Pass × Bool) → Module → Module)
    (em : Module → String × String) :
    ((s.transform r o rp em).1.2 = none ↔ o.source_map = false)
    ∧ (o.source_map = true →
        (s.transform r o rp em).1.2
          = some (build_source_map s.source_map
              (em (rp (transformPasses s.source_type r o) s.module)).2))
    ∧ ∀ (specifier source : String) (hint : Option SourceType)
        (pm : SourceType → String → Except RawParseErr Module) (s2 : SWC),
        SWC.parse specifier source hint pm = ParseOutcome.ok s2 →
          s2.source_map = [specifier] := by
  refine ⟨?_, ?_, parse_ok_source_map⟩
  · cases h : o.source_map with
    | false => simp [SWC.transform, SWC.apply_fold, h]
    | true => simp [SWC.transform, SWC.apply_fold, h]
  · intro h
    simp [SWC.transform, SWC.apply_fold, h]

/-- Witness for C7: with source_map set, the sample transform returns the
payload referencing the input specifier; the sample parse registers the
input specifier in the source-map context. -/
theorem C7_source_map_gate_witness :
    ((sampleSWC.transform sampleResolver
        { jsx_factory := "React.createElement"
          jsx_fragment_factory := "React.Fragment"
          source_map := true
          is_dev := false } idPasses constEmit).1.2
      = some { sources := ["/app.ts"], mappings := "AAAA" })
    ∧ sampleSWC.source_map = ["/app.ts"] :=
  ⟨(C7_source_map_gate sampleSWC sampleResolver
      { jsx_factory := "React.createElement"
        jsx_fragment_factory := "React.Fragment"
        source_map := true
        is_dev := false } idPasses constEmit).2.1 rfl,
   (C7_source_map_gate sampleSWC sampleResolver
      { jsx_factory := "React.createElement"
        jsx_fragment_factory := "React.Fragment"
        source_map := true
        is_dev := false } idPasses constEmit).2.2
     "/app.ts" "export const a = 1" none okParseModule sampleSWC rfl⟩

/-- Claim C8: export-name extraction never fails, returning Ok with the
collected names for every parsed module, and the traversal it folds with
returns every module item unchanged. -/
theorem C8_export_names_total (s : SWC) :
    (∃ names, s.parse_export_names = Except.ok names)
    ∧ (foldModuleItems [] s.module.body).1 = s.module.body :=
  ⟨⟨(foldModuleItems [] s.module.body).2, rfl⟩,
   foldModuleItems_fst [] s.module.body⟩

end Esm
